import Mathlib

/-!
Verification of the wintertoo request-validation and schedule-construction
pipeline (`wintertoo/validate.py`, `wintertoo/schedule.py`,
`wintertoo/data/__init__.py`), as a shallow embedding.

Conventions of the embedding:
* Instants (MJD values, program start/end dates) are rationals on a common
  chronological axis; `astropy.time.Time` comparison is order on that axis.
* The JSON-schema check of a single row (`validate_schedule_json`, whose
  schema document is external data) and the ephemeris query `up_tonight`
  (in `wintertoo.utils`, an external capability per the design) are
  oracle parameters `schemaOk` and `isUp`.
* The program-database lookup `get_program_details` is modelled by passing
  the list of matching records directly to
  `get_and_validate_program_details`.
* Python `raise RequestValidationError(...)` and a bare `assert` are both
  modelled as `Except.error` carrying a `VError`; the Boolean
  `VError.isRequestValidationError` records which of the two the source
  statement was.
-/

namespace Wintertoo

/-- Constant `SUMMER_FILTERS` from `wintertoo/data/__init__.py`. -/
def SUMMER_FILTERS : List String := ["u", "g", "r", "i"]

/-- Constant `WINTER_FILTERS` from `wintertoo/data/__init__.py`. -/
def WINTER_FILTERS : List String := ["Y", "J", "Hs"]

/-- Constant `MAX_TARGET_PRIORITY` from `wintertoo/data/__init__.py`. -/
def MAX_TARGET_PRIORITY : ℚ := 100

/-- One row of a schedule dataframe, with the columns `validate.py` reads:
`progName`, `progPI`, `raDeg`, `decDeg`, `validStart`, `validStop`
(MJD), `priority`. -/
structure ScheduleRow where
  progName : String
  progPI : String
  raDeg : ℚ
  decDeg : ℚ
  validStart : ℚ
  validStop : ℚ
  priority : ℚ
deriving DecidableEq, Repr

/-- A record of the `programs` table as returned by the database lookup:
the fields `validate_schedule_request` reads (`piname`, `basepriority`,
`startdate`, `enddate`). Dates are on the same chronological axis as MJD
instants. -/
structure Program where
  piname : String
  basepriority : ℚ
  startdate : ℚ
  enddate : ℚ
deriving DecidableEq, Repr

/-- The errors the validation pipeline can raise.  Every constructor but
`assertionError` models a `raise RequestValidationError(...)` statement in
`validate.py`; `assertionError` models a bare Python `assert` failing
(which raises `AssertionError`). -/
inductive VError where
  /-- `validate_schedule_json` re-raising a schema `ValidationError` for a row. -/
  | schemaError : ScheduleRow → VError
  /-- `validate_target_visibility`: the row's target is not up at the instant. -/
  | visibilityError : ScheduleRow → ℚ → VError
  /-- A bare `assert` failed (`AssertionError`, not `RequestValidationError`). -/
  | assertionError : VError
  /-- `validate_target_pi`: raised with no message (`RequestValidationError()`). -/
  | piMismatchError : VError
  /-- `validate_target_priority`: target priority and the maximum allowed. -/
  | priorityError : ℚ → ℚ → VError
  /-- `validate_target_dates`: the offending row. -/
  | dateRangeError : ScheduleRow → VError
  /-- `get_and_validate_program_details`: no match for program and api key. -/
  | notFoundError : String → String → VError
  /-- `get_and_validate_program_details`: multiple matches for the program. -/
  | ambiguousError : String → VError
deriving DecidableEq, Repr

/-- Model of the Python string method `.strip()`: remove leading and
trailing whitespace characters. -/
def strip (s : String) : String :=
  String.mk (((s.data.dropWhile Char.isWhitespace).reverse.dropWhile
    Char.isWhitespace).reverse)

/-- Model of the Python string method `.lower()` on ASCII data: lowercase
every character. -/
def lower (s : String) : String :=
  String.mk (s.data.map Char.toLower)

/-- Whether the Python exception behind a `VError` is an instance of
`RequestValidationError`: true for every `raise RequestValidationError`
site, false for a failed bare `assert` (`AssertionError` derives from
`Exception` directly, not from `RequestValidationError`). -/
def VError.isRequestValidationError : VError → Bool
  | .assertionError => false
  | _ => true

/-- Function `get_and_validate_program_details` (validate.py:30-70): `data` is the
dataframe returned by the database lookup for the given program name and
api key. `len(data) == 0` raises not-found; `len(data) > 1` raises the
multiple-match error; otherwise `data.iloc[0]` is returned. -/
def get_and_validate_program_details (program_name program_api_key : String)
    (data : List Program) : Except VError Program :=
  match data with
  | [] => .error (.notFoundError program_name program_api_key)
  | p :: rest =>
    if rest.length > 0 then .error (.ambiguousError program_name)
    else .ok p

/-- Function `validate_schedule_df` (validate.py:92-101): JSON-schema-validate each
row in order; `schemaOk` is the verdict of `validate_schedule_json` on the
row's serialization. -/
def validate_schedule_df (schemaOk : ScheduleRow → Bool) :
    List ScheduleRow → Except VError Unit
  | [] => .ok ()
  | row :: rest =>
    if schemaOk row then validate_schedule_df schemaOk rest
    else .error (.schemaError row)

/-- The instants `validate_target_visibility` samples for a row: the
literal list `[row["validStart"], row["validStop"]]` at validate.py:116. -/
def visibility_query_times (row : ScheduleRow) : List ℚ :=
  [row.validStart, row.validStop]

/-- The inner loop of `validate_target_visibility` for one row:
`up_tonight(time_mjd=t, ra=row.raDeg, dec=row.decDeg)` is the oracle
`isUp t ra dec`; the first instant that is not up raises. -/
def check_row_times (isUp : ℚ → ℚ → ℚ → Bool) (row : ScheduleRow) :
    List ℚ → Except VError Unit
  | [] => .ok ()
  | t :: ts =>
    if isUp t row.raDeg row.decDeg then check_row_times isUp row ts
    else .error (.visibilityError row t)

/-- Function `validate_target_visibility` (validate.py:104-127): for each row in
order, query the ephemeris at the row's start and stop instants and raise
on the first instant at which the target is not up. -/
def validate_target_visibility (isUp : ℚ → ℚ → ℚ → Bool) :
    List ScheduleRow → Except VError Unit
  | [] => .ok ()
  | row :: rest =>
    match check_row_times isUp row (visibility_query_times row) with
    | .error e => .error e
    | .ok _ => validate_target_visibility isUp rest

/-- Function `calculate_overall_priority` (validate.py:130-140). -/
def calculate_overall_priority (target_priority program_base_priority : ℚ) : ℚ :=
  target_priority + program_base_priority

/-- Function `validate_target_priority` (validate.py:143-167): raises for the first
row whose priority exceeds
`calculate_overall_priority(MAX_TARGET_PRIORITY, program_base_priority)`. -/
def validate_target_priority (program_base_priority : ℚ) :
    List ScheduleRow → Except VError Unit
  | [] => .ok ()
  | row :: rest =>
    if row.priority > calculate_overall_priority MAX_TARGET_PRIORITY program_base_priority
    then .error (.priorityError row.priority
      (calculate_overall_priority MAX_TARGET_PRIORITY program_base_priority))
    else validate_target_priority program_base_priority rest

/-- Function `validate_filter` (validate.py:170-177):
`assert filter_name.lower() in SUMMER_FILTERS`. -/
def validate_filter (filter_name : String) : Except VError Unit :=
  if SUMMER_FILTERS.contains (lower filter_name) then .ok ()
  else .error .assertionError

/-- Function `validate_target_pi` (validate.py:180-194): raises
`RequestValidationError()` for the first row whose `progPI` differs from
`prog_pi` (the comparison is `pi != prog_pi`, verbatim on the row side). -/
def validate_target_pi (prog_pi : String) :
    List ScheduleRow → Except VError Unit
  | [] => .ok ()
  | row :: rest =>
    if row.progPI ≠ prog_pi then .error .piMismatchError
    else validate_target_pi prog_pi rest

/-- Function `validate_target_dates` (validate.py:197-232): raises for the first
row with `start > stop`, or `start < program_start_date`, or
`stop > program_end_date`. -/
def validate_target_dates (program_start_date program_end_date : ℚ) :
    List ScheduleRow → Except VError Unit
  | [] => .ok ()
  | row :: rest =>
    if row.validStart > row.validStop then .error (.dateRangeError row)
    else if row.validStart < program_start_date then .error (.dateRangeError row)
    else if row.validStop > program_end_date then .error (.dateRangeError row)
    else validate_target_dates program_start_date program_end_date rest

/-- Function `validate_schedule_request` (validate.py:235-285).  Steps, in source
order: (1) `validate_schedule_df`; (2) `validate_target_visibility`;
(3) `prog_names = list(set(schedule_request["progName"]))` followed by
`assert len(prog_names) == 1`; (4) `get_and_validate_program_details`
(its lookup result is the `db` parameter); (5) `validate_target_pi`
against `piname.strip()`; (6) `validate_target_priority`;
(7) `validate_target_dates`. -/
def validate_schedule_request (schemaOk : ScheduleRow → Bool)
    (isUp : ℚ → ℚ → ℚ → Bool) (schedule_request : List ScheduleRow)
    (program_name program_api_key : String) (db : List Program) :
    Except VError Unit :=
  match validate_schedule_df schemaOk schedule_request with
  | .error e => .error e
  | .ok _ =>
  match validate_target_visibility isUp schedule_request with
  | .error e => .error e
  | .ok _ =>
  if ((schedule_request.map fun r => r.progName).dedup).length = 1 then
    match get_and_validate_program_details program_name program_api_key db with
    | .error e => .error e
    | .ok prog =>
      match validate_target_pi (strip prog.piname) schedule_request with
      | .error e => .error e
      | .ok _ =>
      match validate_target_priority prog.basepriority schedule_request with
      | .error e => .error e
      | .ok _ =>
        validate_target_dates prog.startdate prog.enddate schedule_request
  else .error .assertionError

/-! ## Schedule construction (`wintertoo/schedule.py`) -/

/-- Function `to_date_string` (schedule.py:13-16): `time.isot.split("T")[0]` renders
the UT calendar date of an instant.  Calendar-date strings are in bijection
with integer MJD day numbers (an MJD day starts at UT midnight), so the
date string is abstracted as the floor of the MJD value. -/
def to_date_string (time : ℚ) : ℤ :=
  ⌊time⌋

/-- One row appended by `build_schedule` (schedule.py:53-69), with the
columns of the dictionary literal.  `Dither?` holds the two-letter
rendering of the dither flag, `Earliest UT Date` and `Latest UT Date` the
rendered dates, `UT Start Time` and `UT Finish Time` the fixed placeholder
clock strings. -/
structure BuildRow where
  raDeg : ℚ
  decDeg : ℚ
  filt : String
  texp : ℚ
  nexp : ℤ
  dither : String
  ditherDistance : String
  pi : String
  propID : String
  earliestUTDate : ℤ
  utStartTime : String
  latestUTDate : ℤ
  utFinishTime : String
  maximumAirmass : ℚ
  maximumSeeing : ℚ
deriving DecidableEq, Repr

/-- The dictionary literal appended for one (night, target, filter)
combination at schedule.py:53-69: `start_date = to_date_string(t_0 +
(night-1)*u.day)`, `end_date = to_date_string(t_0 + night*u.day)`,
`"Dither?": ["n", "y"][dither_bool]`, fixed UT clock placeholders, and the
request's exposure and condition parameters copied onto the row. -/
def build_row (prog_id pi : String) (texp : ℚ) (nexp : ℤ) (dither_bool : Bool)
    (dither_distance : String) (maximum_airmass maximum_seeing : ℚ)
    (t_0 : ℚ) (night : ℤ) (target : ℚ × ℚ) (f : String) : BuildRow :=
  { raDeg := target.1
    decDeg := target.2
    filt := f
    texp := texp
    nexp := nexp
    dither := if dither_bool then "y" else "n"
    ditherDistance := dither_distance
    pi := pi
    propID := prog_id
    earliestUTDate := to_date_string (t_0 + ((night : ℚ) - 1))
    utStartTime := "00:00:00.02"
    latestUTDate := to_date_string (t_0 + (night : ℚ))
    utFinishTime := "00:00:00.01"
    maximumAirmass := maximum_airmass
    maximumSeeing := maximum_seeing }

/-- The triple loop of `build_schedule` (schedule.py:43-69): starting from
an empty frame, for each night, for each target (`enumerate(ra_degs)` with
`dec_degs[i]`, i.e. the zip of the two coordinate lists), for each filter,
append one row.  Each `schedule.append(..., ignore_index=True)` is an
append at the end of the row list. -/
def build_schedule_rows (ra_degs dec_degs : List ℚ) (prog_id pi : String)
    (filters : List String) (texp : ℚ) (nexp : ℤ) (dither_bool : Bool)
    (dither_distance : String) (maximum_airmass maximum_seeing : ℚ)
    (nights : List ℤ) (t_0 : ℚ) : List BuildRow :=
  nights.foldl (fun sched night =>
    (ra_degs.zip dec_degs).foldl (fun sched target =>
      filters.foldl (fun sched f =>
        sched ++ [build_row prog_id pi texp nexp dither_bool dither_distance
          maximum_airmass maximum_seeing t_0 night target f]) sched) sched) []

/-- Function `build_schedule` (schedule.py:19-76) after the default-argument
resolution (`nights`, `filters` and `t_0` are `None`-defaulted before the
loop, so explicit arguments reach it unchanged): run the triple loop, then
`schedule = schedule.astype({"Nexp": int})`.  On a frame with at least one
row the `Nexp` column exists and the cast returns the same rows (`nexp` is
already integral); on an empty frame the frame has no columns at all and
pandas raises `KeyError` for the unknown column name, so the empty case is
an error, not an empty schedule. -/
def build_schedule (ra_degs dec_degs : List ℚ) (prog_id pi : String)
    (filters : List String) (texp : ℚ) (nexp : ℤ) (dither_bool : Bool)
    (dither_distance : String) (maximum_airmass maximum_seeing : ℚ)
    (nights : List ℤ) (t_0 : ℚ) : Except String (List BuildRow) :=
  let schedule := build_schedule_rows ra_degs dec_degs prog_id pi filters texp
    nexp dither_bool dither_distance maximum_airmass maximum_seeing nights t_0
  if schedule.isEmpty then .error "KeyError: Nexp"
  else .ok schedule

/-! ## Characterizations of the individual validators -/

/-- Decidable pass predicate for one row of the visibility check: the
target is up at both sampled instants. -/
def row_visible (isUp : ℚ → ℚ → ℚ → Bool) (row : ScheduleRow) : Bool :=
  isUp row.validStart row.raDeg row.decDeg && isUp row.validStop row.raDeg row.decDeg

/-- A sample row of program 2021A000 with PI "Stein", valid over the MJD
interval 0 to 1. -/
def rowProgA : ScheduleRow :=
  { progName := "2021A000", progPI := "Stein", raDeg := 0, decDeg := 0,
    validStart := 0, validStop := 1, priority := 0 }

/-- A sample row like `rowProgA` but referencing program 2021B000. -/
def rowProgB : ScheduleRow :=
  { rowProgA with progName := "2021B000" }

/-- A sample row like `rowProgA` whose declared PI carries trailing
whitespace. -/
def rowWhitespacePi : ScheduleRow :=
  { rowProgA with progPI := "Stein " }

/-- A sample row like `rowProgA` whose declared PI is a different name. -/
def rowBadPi : ScheduleRow :=
  { rowProgA with progPI := "Bob" }

/-- A sample program record with PI "Stein", base priority 100, active
over the interval 0 to 1. -/
def progStein : Program :=
  { piname := "Stein", basepriority := 100, startdate := 0, enddate := 1 }

theorem validate_schedule_df_ok_iff (s : ScheduleRow → Bool) (rows : List ScheduleRow) :
    validate_schedule_df s rows = .ok () ↔ ∀ r ∈ rows, s r = true := by
  induction rows with
  | nil => simp [validate_schedule_df]
  | cons r rs ih => by_cases h : s r <;> simp [validate_schedule_df, h, ih]

theorem validate_schedule_df_error_shape (s : ScheduleRow → Bool)
    (rows : List ScheduleRow) (e : VError)
    (h : validate_schedule_df s rows = .error e) :
    ∃ r ∈ rows, e = .schemaError r ∧ s r = false := by
  induction rows with
  | nil => simp [validate_schedule_df] at h
  | cons r rs ih =>
    by_cases hr : s r
    · simp only [validate_schedule_df, hr, if_pos] at h
      obtain ⟨r0, hr0, he⟩ := ih h
      exact ⟨r0, List.mem_cons_of_mem _ hr0, he⟩
    · simp only [validate_schedule_df, hr, if_neg, Bool.false_eq_true,
        not_false_iff] at h
      exact ⟨r, List.mem_cons_self r rs, by simpa using h.symm,
        by simpa using hr⟩

theorem check_row_times_ok_iff (isUp : ℚ → ℚ → ℚ → Bool) (row : ScheduleRow) :
    check_row_times isUp row (visibility_query_times row) = .ok () ↔
      row_visible isUp row = true := by
  by_cases h1 : isUp row.validStart row.raDeg row.decDeg <;>
    by_cases h2 : isUp row.validStop row.raDeg row.decDeg <;>
      simp [check_row_times, visibility_query_times, row_visible, h1, h2]

theorem check_row_times_error_shape (isUp : ℚ → ℚ → ℚ → Bool)
    (row : ScheduleRow) (e : VError)
    (h : check_row_times isUp row (visibility_query_times row) = .error e) :
    e = .visibilityError row row.validStart ∨
      e = .visibilityError row row.validStop := by
  by_cases h1 : isUp row.validStart row.raDeg row.decDeg <;>
    by_cases h2 : isUp row.validStop row.raDeg row.decDeg <;>
      simp_all [check_row_times, visibility_query_times]

theorem validate_target_visibility_ok_iff (isUp : ℚ → ℚ → ℚ → Bool)
    (rows : List ScheduleRow) :
    validate_target_visibility isUp rows = .ok () ↔
      ∀ r ∈ rows, row_visible isUp r = true := by
  induction rows with
  | nil => simp [validate_target_visibility]
  | cons r rs ih =>
    rw [validate_target_visibility]
    cases hc : check_row_times isUp r (visibility_query_times r) with
    | error e =>
      have : ¬ row_visible isUp r = true := by
        intro hv
        rw [← check_row_times_ok_iff isUp r] at hv
        simp [hv] at hc
      simp [hc, this]
    | ok u =>
      cases u
      have hv : row_visible isUp r = true := (check_row_times_ok_iff isUp r).mp hc
      simp [hc, ih, hv]

theorem validate_target_visibility_error_shape (isUp : ℚ → ℚ → ℚ → Bool)
    (rows : List ScheduleRow) (e : VError)
    (h : validate_target_visibility isUp rows = .error e) :
    ∃ r ∈ rows, (e = .visibilityError r r.validStart ∨
      e = .visibilityError r r.validStop) ∧ row_visible isUp r = false := by
  induction rows with
  | nil => simp [validate_target_visibility] at h
  | cons r rs ih =>
    rw [validate_target_visibility] at h
    cases hc : check_row_times isUp r (visibility_query_times r) with
    | error e0 =>
      rw [hc] at h
      have he : e = e0 := by simpa using h.symm
      subst he
      refine ⟨r, List.mem_cons_self r rs, check_row_times_error_shape isUp r e hc, ?_⟩
      by_contra hvis
      have : check_row_times isUp r (visibility_query_times r) = .ok () :=
        (check_row_times_ok_iff isUp r).mpr (by simpa using hvis)
      simp [this] at hc
    | ok u =>
      cases u
      rw [hc] at h
      obtain ⟨r0, hr0, he⟩ := ih h
      exact ⟨r0, List.mem_cons_of_mem _ hr0, he⟩

theorem validate_target_priority_ok_iff (base : ℚ) (rows : List ScheduleRow) :
    validate_target_priority base rows = .ok () ↔
      ∀ r ∈ rows, r.priority ≤ MAX_TARGET_PRIORITY + base := by
  induction rows with
  | nil => simp [validate_target_priority]
  | cons r rs ih =>
    rw [validate_target_priority]
    by_cases h : r.priority > calculate_overall_priority MAX_TARGET_PRIORITY base
    · rw [if_pos h]
      simp only [calculate_overall_priority] at h
      constructor
      · intro hco
        simp at hco
      · intro hall
        exact absurd (hall r (List.mem_cons_self r rs)) (not_le_of_lt h)
    · rw [if_neg h]
      simp only [calculate_overall_priority, gt_iff_lt, not_lt] at h
      rw [ih, List.forall_mem_cons]
      exact (and_iff_right h).symm

theorem validate_target_priority_error_shape (base : ℚ) (rows : List ScheduleRow)
    (e : VError) (h : validate_target_priority base rows = .error e) :
    ∃ r ∈ rows, e = .priorityError r.priority (MAX_TARGET_PRIORITY + base) ∧
      r.priority > MAX_TARGET_PRIORITY + base := by
  induction rows with
  | nil => simp [validate_target_priority] at h
  | cons r rs ih =>
    by_cases hr : r.priority > calculate_overall_priority MAX_TARGET_PRIORITY base
    · simp only [validate_target_priority, hr, if_pos] at h
      refine ⟨r, List.mem_cons_self r rs, ?_, ?_⟩
      · simpa [calculate_overall_priority] using h.symm
      · simpa [calculate_overall_priority] using hr
    · simp only [validate_target_priority, hr, if_neg, not_false_iff] at h
      obtain ⟨r0, hr0, he⟩ := ih h
      exact ⟨r0, List.mem_cons_of_mem _ hr0, he⟩

theorem validate_target_pi_ok_iff (prog_pi : String) (rows : List ScheduleRow) :
    validate_target_pi prog_pi rows = .ok () ↔
      ∀ r ∈ rows, r.progPI = prog_pi := by
  induction rows with
  | nil => simp [validate_target_pi]
  | cons r rs ih =>
    by_cases h : r.progPI = prog_pi <;> simp [validate_target_pi, h, ih]

theorem validate_target_pi_error_shape (prog_pi : String) (rows : List ScheduleRow)
    (e : VError) (h : validate_target_pi prog_pi rows = .error e) :
    e = .piMismatchError ∧ ∃ r ∈ rows, r.progPI ≠ prog_pi := by
  induction rows with
  | nil => simp [validate_target_pi] at h
  | cons r rs ih =>
    rw [validate_target_pi] at h
    by_cases hr : r.progPI = prog_pi
    · rw [if_neg (not_not_intro hr)] at h
      obtain ⟨he, r0, hr0, hne⟩ := ih h
      exact ⟨he, r0, List.mem_cons_of_mem _ hr0, hne⟩
    · rw [if_pos hr] at h
      exact ⟨by simpa using h.symm, r, List.mem_cons_self r rs, hr⟩

theorem validate_target_dates_ok_iff (ps pe : ℚ) (rows : List ScheduleRow) :
    validate_target_dates ps pe rows = .ok () ↔
      ∀ r ∈ rows, r.validStart ≤ r.validStop ∧ ps ≤ r.validStart ∧
        r.validStop ≤ pe := by
  induction rows with
  | nil => simp [validate_target_dates]
  | cons r rs ih =>
    rw [validate_target_dates]
    by_cases h1 : r.validStart > r.validStop
    · rw [if_pos h1]
      constructor
      · intro hco
        simp at hco
      · intro hall
        exact absurd (hall r (List.mem_cons_self r rs)).1 (not_le_of_lt h1)
    · rw [if_neg h1]
      by_cases h2 : r.validStart < ps
      · rw [if_pos h2]
        constructor
        · intro hco
          simp at hco
        · intro hall
          exact absurd (hall r (List.mem_cons_self r rs)).2.1 (not_le_of_lt h2)
      · rw [if_neg h2]
        by_cases h3 : r.validStop > pe
        · rw [if_pos h3]
          constructor
          · intro hco
            simp at hco
          · intro hall
            exact absurd (hall r (List.mem_cons_self r rs)).2.2 (not_le_of_lt h3)
        · rw [if_neg h3]
          rw [ih, List.forall_mem_cons]
          have hr : r.validStart ≤ r.validStop ∧ ps ≤ r.validStart ∧
              r.validStop ≤ pe := ⟨not_lt.mp h1, not_lt.mp h2, not_lt.mp h3⟩
          exact (and_iff_right hr).symm

theorem validate_target_dates_error_shape (ps pe : ℚ) (rows : List ScheduleRow)
    (e : VError) (h : validate_target_dates ps pe rows = .error e) :
    ∃ r ∈ rows, e = .dateRangeError r ∧
      (r.validStart > r.validStop ∨ r.validStart < ps ∨ r.validStop > pe) := by
  induction rows with
  | nil => simp [validate_target_dates] at h
  | cons r rs ih =>
    by_cases h1 : r.validStart > r.validStop
    · simp only [validate_target_dates, h1, if_pos] at h
      exact ⟨r, List.mem_cons_self r rs, by simpa using h.symm, Or.inl h1⟩
    · by_cases h2 : r.validStart < ps
      · simp only [validate_target_dates, h1, if_neg, not_false_iff, h2, if_pos] at h
        exact ⟨r, List.mem_cons_self r rs, by simpa using h.symm, Or.inr (Or.inl h2)⟩
      · by_cases h3 : r.validStop > pe
        · simp only [validate_target_dates, h1, h2, h3, if_neg, not_false_iff,
            if_pos] at h
          exact ⟨r, List.mem_cons_self r rs, by simpa using h.symm,
            Or.inr (Or.inr h3)⟩
        · simp only [validate_target_dates, h1, h2, h3, if_neg, not_false_iff] at h
          obtain ⟨r0, hr0, he⟩ := ih h
          exact ⟨r0, List.mem_cons_of_mem _ hr0, he⟩

theorem except_error_iff_ne_ok (x : Except VError Unit) :
    (∃ e, x = .error e) ↔ ¬ x = .ok () := by
  cases x with
  | error e => simp
  | ok u => cases u; simp

theorem get_and_validate_program_details_ok_iff (name key : String)
    (db : List Program) (p : Program) :
    get_and_validate_program_details name key db = .ok p ↔ db = [p] := by
  match db with
  | [] => simp [get_and_validate_program_details]
  | [q] =>
    constructor
    · intro h
      have hq : q = p := by simpa [get_and_validate_program_details] using h
      simp [hq]
    · intro h
      have hq : q = p := by simpa using h
      simp [get_and_validate_program_details, hq]
  | q :: q2 :: rest => simp [get_and_validate_program_details]

theorem get_and_validate_program_details_error_shape (name key : String)
    (db : List Program) (e : VError)
    (h : get_and_validate_program_details name key db = .error e) :
    e = .notFoundError name key ∨ e = .ambiguousError name := by
  match db with
  | [] =>
    simp [get_and_validate_program_details] at h
    exact Or.inl h.symm
  | [q] => simp [get_and_validate_program_details] at h
  | q :: q2 :: rest =>
    simp [get_and_validate_program_details] at h
    exact Or.inr h.symm

/-! ## Claims about the individual validators -/

/-- C3: `calculate_overall_priority(t, p)` equals `t + p` for all rational
`t` and `p`; `MAX_TARGET_PRIORITY` is the constant `100.0`; the priority
validator rejects a schedule iff some row's priority is strictly greater
than `MAX_TARGET_PRIORITY + program_base_priority`; and a single-row
schedule whose priority is exactly the ceiling is accepted. -/
theorem priority_validator_spec :
    MAX_TARGET_PRIORITY = 100 ∧
    (∀ t p : ℚ, calculate_overall_priority t p = t + p) ∧
    (∀ (base : ℚ) (rows : List ScheduleRow),
      (∃ e, validate_target_priority base rows = .error e) ↔
        ∃ r ∈ rows, r.priority > MAX_TARGET_PRIORITY + base) ∧
    (∀ (base : ℚ) (r : ScheduleRow),
      r.priority = MAX_TARGET_PRIORITY + base →
        validate_target_priority base [r] = .ok ()) := by
  refine ⟨rfl, fun t p => rfl, ?_, ?_⟩
  · intro base rows
    constructor
    · rintro ⟨e, he⟩
      obtain ⟨r, hr, _, hgt⟩ := validate_target_priority_error_shape base rows e he
      exact ⟨r, hr, hgt⟩
    · rintro ⟨r, hr, hgt⟩
      rw [except_error_iff_ne_ok, validate_target_priority_ok_iff]
      intro hall
      exact absurd (hall r hr) (not_le_of_lt hgt)
  · intro base r hr
    rw [validate_target_priority_ok_iff]
    intro r0 hr0
    rw [List.mem_singleton] at hr0
    subst hr0
    exact le_of_eq hr

/-- Witness for C3: a row whose priority is exactly the ceiling (with base
priority 0) passes the priority validator. -/
theorem priority_validator_spec_witness :
    validate_target_priority 0
      [{ progName := "2020A000", progPI := "PI", raDeg := 0, decDeg := 0,
         validStart := 0, validStop := 0,
         priority := MAX_TARGET_PRIORITY + 0 }] = .ok () :=
  priority_validator_spec.2.2.2 0 _ rfl

/-- C4: the date validator rejects iff some row has `start > stop`, or
`start < program.startdate`, or `stop > program.enddate`; a row exactly at
the boundary values `start = program.startdate`, `stop = program.enddate`
is accepted. -/
theorem date_validator_spec :
    (∀ (ps pe : ℚ) (rows : List ScheduleRow),
      (∃ e, validate_target_dates ps pe rows = .error e) ↔
        ∃ r ∈ rows, (r.validStart > r.validStop ∨ r.validStart < ps ∨
          r.validStop > pe)) ∧
    (∀ (ps pe : ℚ) (r : ScheduleRow), ps ≤ pe →
      r.validStart = ps → r.validStop = pe →
      validate_target_dates ps pe [r] = .ok ()) := by
  constructor
  · intro ps pe rows
    constructor
    · rintro ⟨e, he⟩
      obtain ⟨r, hr, _, hbad⟩ := validate_target_dates_error_shape ps pe rows e he
      exact ⟨r, hr, hbad⟩
    · rintro ⟨r, hr, hbad⟩
      rw [except_error_iff_ne_ok, validate_target_dates_ok_iff]
      intro hall
      obtain ⟨h1, h2, h3⟩ := hall r hr
      rcases hbad with hb | hb | hb
      · exact absurd h1 (not_le_of_lt hb)
      · exact absurd h2 (not_le_of_lt hb)
      · exact absurd h3 (not_le_of_lt hb)
  · intro ps pe r hle h1 h2
    rw [validate_target_dates_ok_iff]
    intro r0 hr0
    rw [List.mem_singleton] at hr0
    subst hr0
    exact ⟨h1 ▸ h2 ▸ hle, le_of_eq h1.symm, le_of_eq h2⟩

/-- Witness for C4: a row exactly on the program's date boundaries is
accepted. -/
theorem date_validator_spec_witness :
    validate_target_dates 0 1
      [{ progName := "2020A000", progPI := "PI", raDeg := 0, decDeg := 0,
         validStart := 0, validStop := 1, priority := 0 }] = .ok () :=
  date_validator_spec.2 0 1 _ (by decide) rfl rfl

/-- C7: the program resolver fails with the not-found error iff zero
records match, fails with the ambiguity error iff more than one record
matches, and returns `p` successfully iff `p` is the unique matching
record. -/
theorem program_resolver_spec :
    ∀ (name key : String) (db : List Program),
      (get_and_validate_program_details name key db =
        .error (.notFoundError name key) ↔ db = []) ∧
      (get_and_validate_program_details name key db =
        .error (.ambiguousError name) ↔ db.length > 1) ∧
      (∀ p : Program,
        get_and_validate_program_details name key db = .ok p ↔ db = [p]) := by
  intro name key db
  refine ⟨?_, ?_, fun p => get_and_validate_program_details_ok_iff name key db p⟩
  · match db with
    | [] => simp [get_and_validate_program_details]
    | [q] => simp [get_and_validate_program_details]
    | q :: q2 :: rest => simp [get_and_validate_program_details]
  · match db with
    | [] => simp [get_and_validate_program_details]
    | [q] => simp [get_and_validate_program_details]
    | q :: q2 :: rest => simp [get_and_validate_program_details]

/-- C8: for every row, the visibility validator samples the ephemeris
exactly at the row's `validStart` and `validStop` instants, and the check
fails iff some row has at least one of its two endpoints not observable;
it succeeds iff every row is observable at both endpoints. -/
theorem visibility_validator_spec :
    ∀ (isUp : ℚ → ℚ → ℚ → Bool) (rows : List ScheduleRow),
      (∀ r : ScheduleRow, visibility_query_times r =
        [r.validStart, r.validStop]) ∧
      (validate_target_visibility isUp rows = .ok () ↔
        ∀ r ∈ rows, isUp r.validStart r.raDeg r.decDeg = true ∧
          isUp r.validStop r.raDeg r.decDeg = true) ∧
      ((∃ e, validate_target_visibility isUp rows = .error e) ↔
        ∃ r ∈ rows, (isUp r.validStart r.raDeg r.decDeg = false ∨
          isUp r.validStop r.raDeg r.decDeg = false)) := by
  intro isUp rows
  have hok : validate_target_visibility isUp rows = .ok () ↔
      ∀ r ∈ rows, isUp r.validStart r.raDeg r.decDeg = true ∧
        isUp r.validStop r.raDeg r.decDeg = true := by
    rw [validate_target_visibility_ok_iff]
    constructor
    · intro h r hr
      have h2 := h r hr
      rw [row_visible, Bool.and_eq_true] at h2
      exact h2
    · intro h r hr
      rw [row_visible, Bool.and_eq_true]
      exact h r hr
  refine ⟨fun r => rfl, hok, ?_⟩
  rw [except_error_iff_ne_ok, hok]
  constructor
  · intro hni
    by_contra hno
    push_neg at hno
    refine hni ?_
    intro r hr
    have h2 := hno r hr
    exact ⟨by simpa using h2.1, by simpa using h2.2⟩
  · rintro ⟨r, hr, hb⟩ hall
    have h2 := hall r hr
    rcases hb with hb | hb <;> simp [hb] at h2

/-- C10: `validate_filter` accepts a filter name iff its lowercased form
is one of the SUMMER filters u, g, r, i; acceptance is case-insensitive
(G is accepted); every WINTER filter name (Y, J, Hs) and an unknown name
are rejected. -/
theorem validate_filter_spec :
    (∀ f : String, validate_filter f = .ok () ↔
      (lower f = "u" ∨ lower f = "g" ∨ lower f = "r" ∨ lower f = "i")) ∧
    validate_filter "G" = .ok () ∧
    (∀ w ∈ WINTER_FILTERS, validate_filter w = .error .assertionError) ∧
    validate_filter "z" = .error .assertionError := by
  refine ⟨?_, rfl, ?_, rfl⟩
  case refine_2 =>
    intro w hw
    simp only [WINTER_FILTERS, List.mem_cons, List.mem_singleton,
      List.not_mem_nil, or_false] at hw
    rcases hw with h | h | h <;> subst h <;> rfl
  intro f
  rw [validate_filter]
  by_cases hc : SUMMER_FILTERS.contains (lower f)
  · rw [if_pos hc]
    simp only [SUMMER_FILTERS] at hc
    simp at hc
    simpa using hc
  · rw [if_neg hc]
    simp only [SUMMER_FILTERS] at hc
    simp at hc
    simpa using hc

/-- C6 (amended): the PI validator, invoked with the program's `piname`
stripped of surrounding whitespace, fails iff some row's `progPI` differs
verbatim from that stripped string; the row-side string is not stripped. -/
theorem pi_validator_spec :
    ∀ (rows : List ScheduleRow) (prog : Program),
      (validate_target_pi (strip prog.piname) rows = .ok () ↔
        ∀ r ∈ rows, r.progPI = strip prog.piname) ∧
      ((∃ e, validate_target_pi (strip prog.piname) rows = .error e) ↔
        ∃ r ∈ rows, r.progPI ≠ strip prog.piname) := by
  intro rows prog
  refine ⟨validate_target_pi_ok_iff _ rows, ?_⟩
  constructor
  · rintro ⟨e, he⟩
    exact (validate_target_pi_error_shape _ rows e he).2
  · rintro ⟨r, hr, hne⟩
    rw [except_error_iff_ne_ok, validate_target_pi_ok_iff]
    intro hall
    exact hne (hall r hr)

/-- Counterexample for C6 as stated: a schedule whose single row declares
`progPI` "Stein " — equal to the resolved program's `piname` "Stein" up to
surrounding whitespace — is rejected with the PI-mismatch error, because
only the program side of the comparison is stripped. -/
theorem pi_validator_whitespace_counterexample :
    rowWhitespacePi.progPI = "Stein " ∧ progStein.piname = "Stein" ∧
    validate_schedule_request (fun _ => true) (fun _ _ _ => true)
      [rowWhitespacePi] "2021A000" "apikey" [progStein] =
      .error .piMismatchError := ⟨rfl, rfl, rfl⟩

/-! ## Stage structure of the validation orchestrator -/

theorem vsr_df_error (s : ScheduleRow → Bool) (isUp : ℚ → ℚ → ℚ → Bool)
    (rows : List ScheduleRow) (name key : String) (db : List Program)
    (e : VError) (h : validate_schedule_df s rows = .error e) :
    validate_schedule_request s isUp rows name key db = .error e := by
  simp only [validate_schedule_request, h]

theorem vsr_vis_error (s : ScheduleRow → Bool) (isUp : ℚ → ℚ → ℚ → Bool)
    (rows : List ScheduleRow) (name key : String) (db : List Program)
    (e : VError) (hdf : validate_schedule_df s rows = .ok ())
    (h : validate_target_visibility isUp rows = .error e) :
    validate_schedule_request s isUp rows name key db = .error e := by
  simp only [validate_schedule_request, hdf, h]

theorem vsr_assert_error (s : ScheduleRow → Bool) (isUp : ℚ → ℚ → ℚ → Bool)
    (rows : List ScheduleRow) (name key : String) (db : List Program)
    (hdf : validate_schedule_df s rows = .ok ())
    (hv : validate_target_visibility isUp rows = .ok ())
    (hdd : ¬ ((rows.map fun r => r.progName).dedup.length = 1)) :
    validate_schedule_request s isUp rows name key db =
      .error .assertionError := by
  simp only [validate_schedule_request, hdf, hv, if_neg hdd]

theorem vsr_resolver_error (s : ScheduleRow → Bool) (isUp : ℚ → ℚ → ℚ → Bool)
    (rows : List ScheduleRow) (name key : String) (db : List Program)
    (e : VError) (hdf : validate_schedule_df s rows = .ok ())
    (hv : validate_target_visibility isUp rows = .ok ())
    (hdd : (rows.map fun r => r.progName).dedup.length = 1)
    (h : get_and_validate_program_details name key db = .error e) :
    validate_schedule_request s isUp rows name key db = .error e := by
  simp only [validate_schedule_request, hdf, hv, if_pos hdd, h]

theorem vsr_pi_error (s : ScheduleRow → Bool) (isUp : ℚ → ℚ → ℚ → Bool)
    (rows : List ScheduleRow) (name key : String) (db : List Program)
    (p : Program) (e : VError) (hdf : validate_schedule_df s rows = .ok ())
    (hv : validate_target_visibility isUp rows = .ok ())
    (hdd : (rows.map fun r => r.progName).dedup.length = 1)
    (hres : get_and_validate_program_details name key db = .ok p)
    (h : validate_target_pi (strip p.piname) rows = .error e) :
    validate_schedule_request s isUp rows name key db = .error e := by
  simp only [validate_schedule_request, hdf, hv, if_pos hdd, hres, h]

theorem vsr_priority_error (s : ScheduleRow → Bool) (isUp : ℚ → ℚ → ℚ → Bool)
    (rows : List ScheduleRow) (name key : String) (db : List Program)
    (p : Program) (e : VError) (hdf : validate_schedule_df s rows = .ok ())
    (hv : validate_target_visibility isUp rows = .ok ())
    (hdd : (rows.map fun r => r.progName).dedup.length = 1)
    (hres : get_and_validate_program_details name key db = .ok p)
    (hpi : validate_target_pi (strip p.piname) rows = .ok ())
    (h : validate_target_priority p.basepriority rows = .error e) :
    validate_schedule_request s isUp rows name key db = .error e := by
  simp only [validate_schedule_request, hdf, hv, if_pos hdd, hres, hpi, h]

theorem vsr_dates_stage (s : ScheduleRow → Bool) (isUp : ℚ → ℚ → ℚ → Bool)
    (rows : List ScheduleRow) (name key : String) (db : List Program)
    (p : Program) (hdf : validate_schedule_df s rows = .ok ())
    (hv : validate_target_visibility isUp rows = .ok ())
    (hdd : (rows.map fun r => r.progName).dedup.length = 1)
    (hres : get_and_validate_program_details name key db = .ok p)
    (hpi : validate_target_pi (strip p.piname) rows = .ok ())
    (hprio : validate_target_priority p.basepriority rows = .ok ()) :
    validate_schedule_request s isUp rows name key db =
      validate_target_dates p.startdate p.enddate rows := by
  simp only [validate_schedule_request, hdf, hv, if_pos hdd, hres, hpi, hprio]

/-- Exhaustive decomposition of an orchestrator failure into the stage
that produced it, in the source's stage order. -/
theorem vsr_error_cases (s : ScheduleRow → Bool) (isUp : ℚ → ℚ → ℚ → Bool)
    (rows : List ScheduleRow) (name key : String) (db : List Program)
    (e : VError)
    (h : validate_schedule_request s isUp rows name key db = .error e) :
    validate_schedule_df s rows = .error e ∨
    (validate_schedule_df s rows = .ok () ∧
      validate_target_visibility isUp rows = .error e) ∨
    (validate_schedule_df s rows = .ok () ∧
      validate_target_visibility isUp rows = .ok () ∧
      ¬ ((rows.map fun r => r.progName).dedup.length = 1) ∧
      e = .assertionError) ∨
    (validate_schedule_df s rows = .ok () ∧
      validate_target_visibility isUp rows = .ok () ∧
      ((rows.map fun r => r.progName).dedup.length = 1) ∧
      get_and_validate_program_details name key db = .error e) ∨
    (∃ p, validate_schedule_df s rows = .ok () ∧
      validate_target_visibility isUp rows = .ok () ∧
      ((rows.map fun r => r.progName).dedup.length = 1) ∧
      get_and_validate_program_details name key db = .ok p ∧
      (validate_target_pi (strip p.piname) rows = .error e ∨
        (validate_target_pi (strip p.piname) rows = .ok () ∧
          (validate_target_priority p.basepriority rows = .error e ∨
            (validate_target_priority p.basepriority rows = .ok () ∧
              validate_target_dates p.startdate p.enddate rows =
                .error e))))) := by
  rw [validate_schedule_request] at h
  cases hdf : validate_schedule_df s rows with
  | error e0 =>
    rw [hdf] at h
    simp only at h
    exact Or.inl h
  | ok u =>
    cases u
    rw [hdf] at h
    simp only at h
    cases hv : validate_target_visibility isUp rows with
    | error e0 =>
      rw [hv] at h
      simp only at h
      exact Or.inr (Or.inl ⟨rfl, h⟩)
    | ok u =>
      cases u
      rw [hv] at h
      simp only at h
      by_cases hdd : (rows.map fun r => r.progName).dedup.length = 1
      · rw [if_pos hdd] at h
        cases hres : get_and_validate_program_details name key db with
        | error e0 =>
          rw [hres] at h
          simp only [Except.error.injEq] at h
          exact Or.inr (Or.inr (Or.inr (Or.inl ⟨rfl, rfl, hdd, by rw [h]⟩)))
        | ok p =>
          rw [hres] at h
          simp only at h
          cases hpi : validate_target_pi (strip p.piname) rows with
          | error e0 =>
            rw [hpi] at h
            simp only at h
            exact Or.inr (Or.inr (Or.inr (Or.inr
              ⟨p, rfl, rfl, hdd, rfl, Or.inl (hpi.trans h)⟩)))
          | ok u =>
            cases u
            rw [hpi] at h
            simp only at h
            cases hprio : validate_target_priority p.basepriority rows with
            | error e0 =>
              rw [hprio] at h
              simp only at h
              exact Or.inr (Or.inr (Or.inr (Or.inr
                ⟨p, rfl, rfl, hdd, rfl, Or.inr ⟨hpi, Or.inl (hprio.trans h)⟩⟩)))
            | ok u =>
              cases u
              rw [hprio] at h
              simp only at h
              exact Or.inr (Or.inr (Or.inr (Or.inr
                ⟨p, rfl, rfl, hdd, rfl, Or.inr ⟨hpi, Or.inr ⟨hprio, h⟩⟩⟩)))
      · rw [if_neg hdd] at h
        simp only [Except.error.injEq] at h
        exact Or.inr (Or.inr (Or.inl ⟨rfl, rfl, hdd, h.symm⟩))

/-- The orchestrator succeeds iff every stage succeeds. -/
theorem vsr_ok_iff (s : ScheduleRow → Bool) (isUp : ℚ → ℚ → ℚ → Bool)
    (rows : List ScheduleRow) (name key : String) (db : List Program) :
    validate_schedule_request s isUp rows name key db = .ok () ↔
      validate_schedule_df s rows = .ok () ∧
      validate_target_visibility isUp rows = .ok () ∧
      ((rows.map fun r => r.progName).dedup.length = 1) ∧
      ∃ p, get_and_validate_program_details name key db = .ok p ∧
        validate_target_pi (strip p.piname) rows = .ok () ∧
        validate_target_priority p.basepriority rows = .ok () ∧
        validate_target_dates p.startdate p.enddate rows = .ok () := by
  constructor
  · intro h
    rw [validate_schedule_request] at h
    cases hdf : validate_schedule_df s rows with
    | error e0 => rw [hdf] at h; simp only at h; cases h
    | ok u =>
      cases u
      rw [hdf] at h
      simp only at h
      cases hv : validate_target_visibility isUp rows with
      | error e0 => rw [hv] at h; simp only at h; cases h
      | ok u =>
        cases u
        rw [hv] at h
        simp only at h
        by_cases hdd : (rows.map fun r => r.progName).dedup.length = 1
        · rw [if_pos hdd] at h
          cases hres : get_and_validate_program_details name key db with
          | error e0 => rw [hres] at h; simp only at h; cases h
          | ok p =>
            rw [hres] at h
            simp only at h
            cases hpi : validate_target_pi (strip p.piname) rows with
            | error e0 => rw [hpi] at h; simp only at h; cases h
            | ok u =>
              cases u
              rw [hpi] at h
              simp only at h
              cases hprio : validate_target_priority p.basepriority rows with
              | error e0 => rw [hprio] at h; simp only at h; cases h
              | ok u =>
                cases u
                rw [hprio] at h
                simp only at h
                exact ⟨rfl, rfl, hdd, p, rfl, hpi, hprio, h⟩
        · rw [if_neg hdd] at h
          cases h
  · rintro ⟨hdf, hv, hdd, p, hres, hpi, hprio, hdates⟩
    rw [vsr_dates_stage s isUp rows name key db p hdf hv hdd hres hpi hprio]
    exact hdates

/-- C1 (amended): the validation steps of `validate_schedule_request` run
in the source order — schema check over all rows, then visibility over all
rows, then the single-program assert, then program resolution, then the
PI, priority and date checks, each over all rows — rejecting at the first
failing stage.  In particular the visibility checks run (and are reported)
before the PI check: a PI-mismatch rejection implies every schema and
every visibility check passed, and a schedule with a non-visible row is
rejected with a visibility error even when its PI also mismatches. -/
theorem validate_schedule_request_stage_order :
    ∀ (s : ScheduleRow → Bool) (isUp : ℚ → ℚ → ℚ → Bool)
      (rows : List ScheduleRow) (name key : String) (db : List Program),
      ((∃ r ∈ rows, s r = false) →
        ∃ r ∈ rows, validate_schedule_request s isUp rows name key db =
          .error (.schemaError r) ∧ s r = false) ∧
      ((∀ r ∈ rows, s r = true) →
        (∃ r ∈ rows, row_visible isUp r = false) →
        ∃ r ∈ rows, (validate_schedule_request s isUp rows name key db =
            .error (.visibilityError r r.validStart) ∨
          validate_schedule_request s isUp rows name key db =
            .error (.visibilityError r r.validStop))) ∧
      (validate_schedule_request s isUp rows name key db =
          .error .piMismatchError →
        (∀ r ∈ rows, s r = true) ∧ (∀ r ∈ rows, row_visible isUp r = true) ∧
        ((rows.map fun r => r.progName).dedup.length = 1) ∧
        ∃ p, db = [p] ∧ ∃ r ∈ rows, r.progPI ≠ strip p.piname) ∧
      ((∀ r ∈ rows, s r = true) → (∀ r ∈ rows, row_visible isUp r = true) →
        ((rows.map fun r => r.progName).dedup.length = 1) →
        ∀ p, db = [p] → (∃ r ∈ rows, r.progPI ≠ strip p.piname) →
        validate_schedule_request s isUp rows name key db =
          .error .piMismatchError) ∧
      (∀ q m, validate_schedule_request s isUp rows name key db =
          .error (.priorityError q m) →
        ∃ p, db = [p] ∧ (∀ r ∈ rows, r.progPI = strip p.piname) ∧
          ∃ r ∈ rows, r.priority > MAX_TARGET_PRIORITY + p.basepriority) ∧
      (∀ r0, validate_schedule_request s isUp rows name key db =
          .error (.dateRangeError r0) →
        ∃ p, db = [p] ∧ (∀ r ∈ rows, r.progPI = strip p.piname) ∧
          (∀ r ∈ rows, r.priority ≤ MAX_TARGET_PRIORITY + p.basepriority)) := by
  intro s isUp rows name key db
  refine ⟨?_, ?_, ?_, ?_, ?_, ?_⟩
  · rintro ⟨r, hr, hf⟩
    have hne : ¬ validate_schedule_df s rows = .ok () := by
      rw [validate_schedule_df_ok_iff]
      intro hall
      rw [hall r hr] at hf
      cases hf
    obtain ⟨e, he⟩ := (except_error_iff_ne_ok _).mpr hne
    obtain ⟨r0, hr0, hes, hsf⟩ := validate_schedule_df_error_shape s rows e he
    subst hes
    exact ⟨r0, hr0, vsr_df_error s isUp rows name key db _ he, hsf⟩
  · rintro hs ⟨r, hr, hbad⟩
    have hdf := (validate_schedule_df_ok_iff s rows).mpr hs
    have hne : ¬ validate_target_visibility isUp rows = .ok () := by
      rw [validate_target_visibility_ok_iff]
      intro hall
      rw [hall r hr] at hbad
      cases hbad
    obtain ⟨e, he⟩ := (except_error_iff_ne_ok _).mpr hne
    obtain ⟨r0, hr0, hshape, _⟩ :=
      validate_target_visibility_error_shape isUp rows e he
    have hres := vsr_vis_error s isUp rows name key db e hdf he
    refine ⟨r0, hr0, ?_⟩
    rcases hshape with h1 | h1
    · rw [h1] at hres
      exact Or.inl hres
    · rw [h1] at hres
      exact Or.inr hres
  · intro h
    rcases vsr_error_cases s isUp rows name key db _ h with
      hc | ⟨hdf, hc⟩ | ⟨hdf, hv, hdd, habs⟩ | ⟨hdf, hv, hdd, hres⟩ |
      ⟨p, hdf, hv, hdd, hres, hrest⟩
    · obtain ⟨r, _, hes, _⟩ := validate_schedule_df_error_shape s rows _ hc
      cases hes
    · obtain ⟨r, _, hshape, _⟩ :=
        validate_target_visibility_error_shape isUp rows _ hc
      rcases hshape with h1 | h1 <;> cases h1
    · cases habs
    · rcases get_and_validate_program_details_error_shape name key db _ hres
        with h1 | h1 <;> cases h1
    · refine ⟨(validate_schedule_df_ok_iff s rows).mp hdf,
        (validate_target_visibility_ok_iff isUp rows).mp hv, hdd, p,
        (get_and_validate_program_details_ok_iff name key db p).mp hres, ?_⟩
      rcases hrest with hpi | ⟨hpi, hrest2⟩
      · exact (validate_target_pi_error_shape _ rows _ hpi).2
      · rcases hrest2 with hprio | ⟨hprio, hdates⟩
        · obtain ⟨r, _, hes, _⟩ :=
            validate_target_priority_error_shape _ rows _ hprio
          cases hes
        · obtain ⟨r, _, hes, _⟩ :=
            validate_target_dates_error_shape _ _ rows _ hdates
          cases hes
  · rintro hs hv hdd p hdb hmm
    subst hdb
    have hdf := (validate_schedule_df_ok_iff s rows).mpr hs
    have hvok := (validate_target_visibility_ok_iff isUp rows).mpr hv
    have hres : get_and_validate_program_details name key [p] = .ok p := by
      simp [get_and_validate_program_details]
    have hne : ¬ validate_target_pi (strip p.piname) rows = .ok () := by
      rw [validate_target_pi_ok_iff]
      intro hall
      obtain ⟨r, hr, hneq⟩ := hmm
      exact hneq (hall r hr)
    obtain ⟨e, he⟩ := (except_error_iff_ne_ok _).mpr hne
    have hef := (validate_target_pi_error_shape _ rows e he).1
    subst hef
    exact vsr_pi_error s isUp rows name key [p] p _ hdf hvok hdd hres he
  · intro q m h
    rcases vsr_error_cases s isUp rows name key db _ h with
      hc | ⟨hdf, hc⟩ | ⟨hdf, hv, hdd, habs⟩ | ⟨hdf, hv, hdd, hres⟩ |
      ⟨p, hdf, hv, hdd, hres, hrest⟩
    · obtain ⟨r, _, hes, _⟩ := validate_schedule_df_error_shape s rows _ hc
      cases hes
    · obtain ⟨r, _, hshape, _⟩ :=
        validate_target_visibility_error_shape isUp rows _ hc
      rcases hshape with h1 | h1 <;> cases h1
    · cases habs
    · rcases get_and_validate_program_details_error_shape name key db _ hres
        with h1 | h1 <;> cases h1
    · rcases hrest with hpi | ⟨hpi, hrest2⟩
      · have hes := (validate_target_pi_error_shape _ rows _ hpi).1
        cases hes
      · rcases hrest2 with hprio | ⟨hprio, hdates⟩
        · obtain ⟨r, hr, _, hgt⟩ :=
            validate_target_priority_error_shape _ rows _ hprio
          exact ⟨p, (get_and_validate_program_details_ok_iff name key db p).mp hres,
            (validate_target_pi_ok_iff _ rows).mp hpi, r, hr, hgt⟩
        · obtain ⟨r, _, hes, _⟩ :=
            validate_target_dates_error_shape _ _ rows _ hdates
          cases hes
  · intro r0 h
    rcases vsr_error_cases s isUp rows name key db _ h with
      hc | ⟨hdf, hc⟩ | ⟨hdf, hv, hdd, habs⟩ | ⟨hdf, hv, hdd, hres⟩ |
      ⟨p, hdf, hv, hdd, hres, hrest⟩
    · obtain ⟨r, _, hes, _⟩ := validate_schedule_df_error_shape s rows _ hc
      cases hes
    · obtain ⟨r, _, hshape, _⟩ :=
        validate_target_visibility_error_shape isUp rows _ hc
      rcases hshape with h1 | h1 <;> cases h1
    · cases habs
    · rcases get_and_validate_program_details_error_shape name key db _ hres
        with h1 | h1 <;> cases h1
    · rcases hrest with hpi | ⟨hpi, hrest2⟩
      · have hes := (validate_target_pi_error_shape _ rows _ hpi).1
        cases hes
      · rcases hrest2 with hprio | ⟨hprio, hdates⟩
        · obtain ⟨r, _, hes, _⟩ :=
            validate_target_priority_error_shape _ rows _ hprio
          cases hes
        · exact ⟨p, (get_and_validate_program_details_ok_iff name key db p).mp hres,
            (validate_target_pi_ok_iff _ rows).mp hpi,
            (validate_target_priority_ok_iff _ rows).mp hprio⟩

/-- Witness for C1 (amended): with schema and visibility oracles that pass
everything, a single-row schedule whose PI mismatches the resolved
program's is rejected with the PI-mismatch error. -/
theorem validate_schedule_request_stage_order_witness :
    validate_schedule_request (fun _ => true) (fun _ _ _ => true)
      [rowBadPi] "2021A000" "apikey" [progStein] =
      .error .piMismatchError :=
  (validate_schedule_request_stage_order (fun _ => true) (fun _ _ _ => true)
      [rowBadPi] "2021A000" "apikey" [progStein]).2.2.2.1
    (fun _ _ => rfl) (fun _ _ => rfl) rfl progStein rfl
    ⟨rowBadPi, List.mem_singleton.mpr rfl, by decide⟩

/-- Counterexample for C1 as stated: a single-row schedule whose declared
PI ("Bob") mismatches the resolved program's PI ("Stein") and whose
target is not visible is rejected with the visibility error at the row's
start instant — not with the PI-mismatch error, so the PI check is not
reported before the visibility check. -/
theorem validate_schedule_request_order_counterexample :
    rowBadPi.progPI ≠ strip progStein.piname ∧
    validate_schedule_request (fun _ => true) (fun _ _ _ => false)
      [rowBadPi] "2021A000" "apikey" [progStein] =
      .error (.visibilityError rowBadPi rowBadPi.validStart) ∧
    VError.visibilityError rowBadPi rowBadPi.validStart ≠
      .piMismatchError := by
  refine ⟨by decide, rfl, ?_⟩
  intro hco
  cases hco

/-- C2 (amended): a schedule whose rows reference more than one distinct
program name is rejected once the schema and visibility stages pass, but
the rejection comes from the bare `assert len(prog_names) == 1`, i.e. an
`AssertionError`, which is not a subtype of `RequestValidationError`. -/
theorem multi_program_assert_spec :
    ∀ (s : ScheduleRow → Bool) (isUp : ℚ → ℚ → ℚ → Bool)
      (rows : List ScheduleRow) (name key : String) (db : List Program),
      (∀ r ∈ rows, s r = true) → (∀ r ∈ rows, row_visible isUp r = true) →
      1 < ((rows.map fun r => r.progName).dedup.length) →
      validate_schedule_request s isUp rows name key db =
        .error .assertionError ∧
      VError.isRequestValidationError .assertionError = false := by
  intro s isUp rows name key db hs hv hdd
  refine ⟨?_, rfl⟩
  exact vsr_assert_error s isUp rows name key db
    ((validate_schedule_df_ok_iff s rows).mpr hs)
    ((validate_target_visibility_ok_iff isUp rows).mpr hv)
    (by omega)

/-- Witness for C2 (amended): a two-row schedule referencing the two
distinct programs 2021A000 and 2021B000 is rejected with the assertion
error, which is not a `RequestValidationError`. -/
theorem multi_program_assert_spec_witness :
    validate_schedule_request (fun _ => true) (fun _ _ _ => true)
      [rowProgA, rowProgB] "2021A000" "key2" [progStein] =
      .error .assertionError ∧
    VError.isRequestValidationError .assertionError = false :=
  multi_program_assert_spec (fun _ => true) (fun _ _ _ => true)
    [rowProgA, rowProgB] "2021A000" "key2" [progStein]
    (fun _ _ => rfl) (fun _ _ => rfl) (by decide)

/-- Counterexample for C2 as stated: a two-row schedule referencing two
distinct program names is indeed rejected, but the exception raised is the
`AssertionError` of the bare `assert`, which is not a subtype of
`RequestValidationError`. -/
theorem multi_program_assert_counterexample :
    rowProgA.progName ≠ rowProgB.progName ∧
    validate_schedule_request (fun _ => true) (fun _ _ _ => true)
      [rowProgA, rowProgB] "2021A000" "apikey" [progStein] =
      .error .assertionError ∧
    VError.isRequestValidationError .assertionError = false :=
  ⟨by decide, rfl, rfl⟩

/-! ## Structure of the schedule builder -/

theorem foldl_append_eq_flatMap {α β : Type} (f : α → List β) :
    ∀ (l : List α) (init : List β),
      l.foldl (fun acc a => acc ++ f a) init = init ++ l.flatMap f := by
  intro l
  induction l with
  | nil => intro init; simp
  | cons a as ih =>
    intro init
    rw [List.foldl_cons, ih, List.flatMap_cons, List.append_assoc]

theorem foldl_append_singleton_eq_map {α β : Type} (g : α → β) :
    ∀ (l : List α) (init : List β),
      l.foldl (fun acc a => acc ++ [g a]) init = init ++ l.map g := by
  intro l
  induction l with
  | nil => intro init; simp
  | cons a as ih =>
    intro init
    rw [List.foldl_cons, ih, List.map_cons]
    simp

/-- The appended frame of `build_schedule` in closed form: the row list is
the night-major, target-major, filter-major expansion of the request. -/
theorem build_schedule_rows_eq (ra_degs dec_degs : List ℚ)
    (prog_id pi : String) (filters : List String) (texp : ℚ) (nexp : ℤ)
    (dither_bool : Bool) (dither_distance : String)
    (maximum_airmass maximum_seeing : ℚ) (nights : List ℤ) (t_0 : ℚ) :
    build_schedule_rows ra_degs dec_degs prog_id pi filters texp nexp
      dither_bool dither_distance maximum_airmass maximum_seeing nights t_0 =
      nights.flatMap fun night => (ra_degs.zip dec_degs).flatMap fun target =>
        filters.map fun f => build_row prog_id pi texp nexp dither_bool
          dither_distance maximum_airmass maximum_seeing t_0 night target f := by
  have hfil : ∀ (night : ℤ) (target : ℚ × ℚ) (init : List BuildRow),
      filters.foldl (fun sched f => sched ++ [build_row prog_id pi texp nexp
        dither_bool dither_distance maximum_airmass maximum_seeing t_0 night
        target f]) init =
        init ++ filters.map (fun f => build_row prog_id pi texp nexp
          dither_bool dither_distance maximum_airmass maximum_seeing t_0 night
          target f) :=
    fun night target => foldl_append_singleton_eq_map _ filters
  have htar : ∀ (night : ℤ) (init : List BuildRow),
      (ra_degs.zip dec_degs).foldl (fun sched target =>
        filters.foldl (fun sched f => sched ++ [build_row prog_id pi texp nexp
          dither_bool dither_distance maximum_airmass maximum_seeing t_0 night
          target f]) sched) init =
        init ++ (ra_degs.zip dec_degs).flatMap (fun target =>
          filters.map fun f => build_row prog_id pi texp nexp dither_bool
            dither_distance maximum_airmass maximum_seeing t_0 night target f) := by
    intro night init
    rw [List.foldl_ext _ (fun sched target => sched ++ filters.map fun f =>
        build_row prog_id pi texp nexp dither_bool dither_distance
          maximum_airmass maximum_seeing t_0 night target f) init
      (fun acc target _ => hfil night target acc)]
    exact foldl_append_eq_flatMap _ _ init
  rw [build_schedule_rows,
    List.foldl_ext _ (fun sched night =>
        sched ++ (ra_degs.zip dec_degs).flatMap fun target =>
          filters.map fun f => build_row prog_id pi texp nexp dither_bool
            dither_distance maximum_airmass maximum_seeing t_0 night target f) []
      (fun acc night _ => htar night acc),
    foldl_append_eq_flatMap]
  exact List.nil_append _

theorem length_flatMap_const {α β : Type} (f : α → List β) (k : ℕ)
    (h : ∀ a, (f a).length = k) :
    ∀ l : List α, (l.flatMap f).length = l.length * k := by
  intro l
  induction l with
  | nil => simp
  | cons a as ih =>
    rw [List.flatMap_cons, List.length_append, ih, h a, List.length_cons]
    ring

/-- C5 (amended): for a request with nonempty nights, targets and filters
(and coordinate lists of equal length), the schedule builder returns
exactly N×T×M rows, ordered night-major, then target-major, then
filter-major.  When no row is appended — empty nights, empty targets or
empty filters — the closing `astype({"Nexp": int})` cast fails on the
empty, column-less frame, so the builder raises an error instead of
returning an empty schedule. -/
theorem build_schedule_spec :
    ∀ (ra_degs dec_degs : List ℚ) (prog_id pi : String)
      (filters : List String) (texp : ℚ) (nexp : ℤ) (dither_bool : Bool)
      (dither_distance : String) (maximum_airmass maximum_seeing : ℚ)
      (nights : List ℤ) (t_0 : ℚ),
      ra_degs.length = dec_degs.length →
      ((nights ≠ [] ∧ ra_degs ≠ [] ∧ filters ≠ []) →
        build_schedule ra_degs dec_degs prog_id pi filters texp nexp
            dither_bool dither_distance maximum_airmass maximum_seeing
            nights t_0 =
          .ok (nights.flatMap fun night =>
            (ra_degs.zip dec_degs).flatMap fun target =>
              filters.map fun f => build_row prog_id pi texp nexp dither_bool
                dither_distance maximum_airmass maximum_seeing t_0 night
                target f) ∧
        (build_schedule_rows ra_degs dec_degs prog_id pi filters texp nexp
            dither_bool dither_distance maximum_airmass maximum_seeing
            nights t_0).length =
          nights.length * ra_degs.length * filters.length) ∧
      ((nights = [] ∨ ra_degs = [] ∨ filters = []) →
        build_schedule ra_degs dec_degs prog_id pi filters texp nexp
            dither_bool dither_distance maximum_airmass maximum_seeing
            nights t_0 = .error "KeyError: Nexp") := by
  intro ra_degs dec_degs prog_id pi filters texp nexp dither_bool
    dither_distance maximum_airmass maximum_seeing nights t_0 hlen
  have hblock : ∀ night : ℤ,
      ((ra_degs.zip dec_degs).flatMap fun target =>
        filters.map fun f => build_row prog_id pi texp nexp dither_bool
          dither_distance maximum_airmass maximum_seeing t_0 night
          target f).length = (ra_degs.zip dec_degs).length * filters.length :=
    fun night => length_flatMap_const _ filters.length
      (fun target => List.length_map _ _) _
  have hziplen : (ra_degs.zip dec_degs).length = ra_degs.length := by
    rw [List.length_zip, hlen, min_self]
  have hrowslen : (build_schedule_rows ra_degs dec_degs prog_id pi filters
      texp nexp dither_bool dither_distance maximum_airmass maximum_seeing
      nights t_0).length =
      nights.length * ra_degs.length * filters.length := by
    rw [build_schedule_rows_eq,
      length_flatMap_const _ ((ra_degs.zip dec_degs).length * filters.length)
        hblock nights, hziplen, Nat.mul_assoc]
  constructor
  · rintro ⟨hn, hr, hf⟩
    have hpos : 0 < (build_schedule_rows ra_degs dec_degs prog_id pi filters
        texp nexp dither_bool dither_distance maximum_airmass maximum_seeing
        nights t_0).length := by
      rw [hrowslen]
      exact Nat.mul_pos (Nat.mul_pos (List.length_pos.mpr hn)
        (List.length_pos.mpr hr)) (List.length_pos.mpr hf)
    have hne : (build_schedule_rows ra_degs dec_degs prog_id pi filters texp
        nexp dither_bool dither_distance maximum_airmass maximum_seeing
        nights t_0).isEmpty = false := by
      cases hb : build_schedule_rows ra_degs dec_degs prog_id pi filters texp
        nexp dither_bool dither_distance maximum_airmass maximum_seeing
        nights t_0 with
      | nil => rw [hb] at hpos; simp at hpos
      | cons x xs => rfl
    refine ⟨?_, hrowslen⟩
    simp only [build_schedule, hne, Bool.false_eq_true, if_false,
      Except.ok.injEq]
    exact build_schedule_rows_eq ra_degs dec_degs prog_id pi filters texp
      nexp dither_bool dither_distance maximum_airmass maximum_seeing
      nights t_0
  · intro hempty
    have hz : build_schedule_rows ra_degs dec_degs prog_id pi filters texp
        nexp dither_bool dither_distance maximum_airmass maximum_seeing
        nights t_0 = [] := by
      rw [build_schedule_rows_eq]
      rcases hempty with h | h | h
      · rw [h]
        rfl
      · subst h
        simp
      · subst h
        simp
    simp [build_schedule, hz]

/-- Witness for C5 (amended): two nights, one target and two filters give
exactly four rows, in night-major filter-minor order. -/
theorem build_schedule_spec_witness :
    build_schedule [0] [0] "2021A000" "Stein" ["g", "r"] 300 1 true "" 2 3
        [1, 2] 59000 =
      .ok ((([1, 2] : List ℤ)).flatMap fun night =>
        ((([0] : List ℚ).zip ([0] : List ℚ))).flatMap fun target =>
          (["g", "r"]).map fun f =>
            build_row "2021A000" "Stein" 300 1 true "" 2 3 59000 night
              target f) ∧
    (build_schedule_rows [0] [0] "2021A000" "Stein" ["g", "r"] 300 1 true ""
        2 3 [1, 2] 59000).length = 2 * 1 * 2 :=
  (build_schedule_spec [0] [0] "2021A000" "Stein" ["g", "r"] 300 1 true "" 2 3
      [1, 2] 59000 rfl).1 ⟨by decide, by decide, by decide⟩

/-- Counterexample for C5 as stated: with an empty nights list (one
target, one filter) the builder does not return an empty schedule — the
`Nexp` cast raises on the empty frame, so the result is an error. -/
theorem build_schedule_empty_counterexample :
    build_schedule [0] [0] "2021A000" "Stein" ["g"] 300 1 true "" 2 3 []
        59000 = .error "KeyError: Nexp" ∧
    ∀ rows : List BuildRow,
      build_schedule [0] [0] "2021A000" "Stein" ["g"] 300 1 true "" 2 3 []
        59000 ≠ .ok rows :=
  ⟨rfl, fun rows h => by cases h⟩

/-- C9: every row emitted by the schedule builder for night n carries the
UT start date of `t_0 + (n-1)` days and the UT stop date of `t_0 + n`
days, the fixed placeholder clock times, and the request's exposure time,
exposure count, dither flag (rendered y/n), dither distance, maximum
airmass and maximum seeing verbatim. -/
theorem build_schedule_rows_fields :
    ∀ (ra_degs dec_degs : List ℚ) (prog_id pi : String)
      (filters : List String) (texp : ℚ) (nexp : ℤ) (dither_bool : Bool)
      (dither_distance : String) (maximum_airmass maximum_seeing : ℚ)
      (nights : List ℤ) (t_0 : ℚ),
      ∀ r ∈ build_schedule_rows ra_degs dec_degs prog_id pi filters texp nexp
        dither_bool dither_distance maximum_airmass maximum_seeing nights t_0,
        ∃ n ∈ nights,
          r.earliestUTDate = to_date_string (t_0 + ((n : ℚ) - 1)) ∧
          r.latestUTDate = to_date_string (t_0 + (n : ℚ)) ∧
          r.utStartTime = "00:00:00.02" ∧ r.utFinishTime = "00:00:00.01" ∧
          r.texp = texp ∧ r.nexp = nexp ∧
          r.dither = (if dither_bool then "y" else "n") ∧
          r.ditherDistance = dither_distance ∧
          r.maximumAirmass = maximum_airmass ∧
          r.maximumSeeing = maximum_seeing := by
  intro ra_degs dec_degs prog_id pi filters texp nexp dither_bool
    dither_distance maximum_airmass maximum_seeing nights t_0 r hr
  rw [build_schedule_rows_eq, List.mem_flatMap] at hr
  obtain ⟨night, hn, hr2⟩ := hr
  rw [List.mem_flatMap] at hr2
  obtain ⟨target, _, hr3⟩ := hr2
  rw [List.mem_map] at hr3
  obtain ⟨f, _, hf⟩ := hr3
  subst hf
  exact ⟨night, hn, rfl, rfl, rfl, rfl, rfl, rfl, rfl, rfl, rfl, rfl⟩

/-- Witness for C9: the single row built for night 1 of a one-target,
one-filter request carries the expected dates, placeholder clock times and
verbatim request parameters. -/
theorem build_schedule_rows_fields_witness :
    ∃ n ∈ ([1] : List ℤ),
      (build_row "2021A000" "Stein" 300 1 true "" 2 3 59000 1
          ((0 : ℚ), (0 : ℚ)) "g").earliestUTDate =
        to_date_string (59000 + ((n : ℚ) - 1)) ∧
      (build_row "2021A000" "Stein" 300 1 true "" 2 3 59000 1
          ((0 : ℚ), (0 : ℚ)) "g").latestUTDate =
        to_date_string (59000 + (n : ℚ)) ∧
      (build_row "2021A000" "Stein" 300 1 true "" 2 3 59000 1
          ((0 : ℚ), (0 : ℚ)) "g").utStartTime = "00:00:00.02" ∧
      (build_row "2021A000" "Stein" 300 1 true "" 2 3 59000 1
          ((0 : ℚ), (0 : ℚ)) "g").utFinishTime = "00:00:00.01" ∧
      (build_row "2021A000" "Stein" 300 1 true "" 2 3 59000 1
          ((0 : ℚ), (0 : ℚ)) "g").texp = 300 ∧
      (build_row "2021A000" "Stein" 300 1 true "" 2 3 59000 1
          ((0 : ℚ), (0 : ℚ)) "g").nexp = 1 ∧
      (build_row "2021A000" "Stein" 300 1 true "" 2 3 59000 1
          ((0 : ℚ), (0 : ℚ)) "g").dither = (if true then "y" else "n") ∧
      (build_row "2021A000" "Stein" 300 1 true "" 2 3 59000 1
          ((0 : ℚ), (0 : ℚ)) "g").ditherDistance = "" ∧
      (build_row "2021A000" "Stein" 300 1 true "" 2 3 59000 1
          ((0 : ℚ), (0 : ℚ)) "g").maximumAirmass = 2 ∧
      (build_row "2021A000" "Stein" 300 1 true "" 2 3 59000 1
          ((0 : ℚ), (0 : ℚ)) "g").maximumSeeing = 3 :=
  build_schedule_rows_fields [0] [0] "2021A000" "Stein" ["g"] 300 1 true ""
    2 3 [1] 59000
    (build_row "2021A000" "Stein" 300 1 true "" 2 3 59000 1
      ((0 : ℚ), (0 : ℚ)) "g")
    (List.mem_singleton.mpr rfl)

end Wintertoo
